import Mathlib

/-!
Verification of the price fetch-and-format script (`script/fetch_prices.py`).

The script holds a static token table `TOKENS` and a static symbol-to-provider
identifier map `COINGECKO_IDS`, issues one HTTP GET to the CoinGecko simple
price endpoint, parses the JSON body, converts each USD price to a fixed-point
integer scaled by 10^18 via `int(p * Decimal(10**18))`, and prints one
`tokens.push(TokenConfig(...));` line per token.

Embedding choices:
* A Python `Decimal` value produced by `Decimal(str(x))` is an exact decimal
  number `m / 10^e`; it is embedded as the structure `Dec` with integer
  mantissa `m` and fractional-digit count `e`.  The script sets
  `getcontext().prec = 50`, so the multiplication `p * Decimal(10**18)` is
  exact for every mantissa of at most 32 significant digits — in particular
  for every value obtainable from `str` of a JSON number or short string —
  and `int(...)` truncates toward zero, embedded with `Int.tdiv`.
* A JSON response object is embedded as an association list from provider
  identifier to a record; a record is `Option Dec`: `some d` when it carries
  a usable `usd` field of value `d`, `none` when it has no `usd` field.
  Python dict lookup (`d.get`, `in`, `d[k]`) is embedded as `alookup`.
* `requests.get(url)` raises on transport failure but returns a response
  object for any HTTP status code; `.json()` raises when the body is not
  JSON.  `NetResult` distinguishes a connection error, and a response with a
  status code and an optional (parseable) JSON body.
* Raising an exception is embedded as `Except.error ()`; in `fetch_prices`
  the subscription `data[cg_id]["usd"]` raises `KeyError` when the record has
  no `usd` field, and in the output loop `prices[symbol]` raises `KeyError`
  when the symbol is absent from the mapping.
-/

/-- An exact decimal number: value `m / 10^e`.  Embeds a Python `Decimal`
obtained from `Decimal(str(x))`. -/
structure Dec where
  m : ℤ
  e : ℕ
deriving DecidableEq, Repr

/-- The rational value of a `Dec`. -/
def decVal (d : Dec) : ℚ := (d.m : ℚ) / (10 : ℚ) ^ d.e

/-- Embeds `int(p * Decimal(10**18))` from line 80 of the script: the exact
product `p * 10^18` truncated toward zero. -/
def scaledInt (d : Dec) : ℤ := (d.m * 10 ^ 18).tdiv ((10 : ℤ) ^ d.e)

/-- A parsed JSON price response: provider identifier to record; the record is
`some d` when it has a usable `usd` field with value `d`, else `none`. -/
abbrev Response := List (String × Option Dec)

/-- Association-list lookup; embeds Python dict lookup (first match — dict
keys are unique, and every mapping we build is functional in its key). -/
def alookup {α : Type} : List (String × α) → String → Option α
  | [], _ => none
  | (k, v) :: rest, s => if k = s then some v else alookup rest s

/-- The static token table `TOKENS` (lines 7-27), byte for byte; entry 4
(ICP) contains the embedded space present in the source. -/
def TOKENS : List (String × String) :=
  [ ("BAT",   "0x02a8db2231f88fee863081aa7baa4b7e3795e84d"),
    ("BDX",   "0xc8805760222bd0a26a9cd0517fecd47f8a0f735f"),
    ("FIL",   "0x4e248e77ccff9766ec3d836a8219d5dd4b646d1d"),
    ("GLM",   "0xec675ef3bd4db1ce1e01990984222636311854d0"),
    ("ICP",   "0xb6eb2a1b73bc0d94 02c59c1b092abcec900b3d04"),
    ("NEAR",  "0x31d0d71d767ce6b4d92af123476f6db87a4f4249"),
    ("NMR",   "0x7ae619fb4025218ba58f0541cc6ebaaefb604769"),
    ("SIREN", "0x4221c19e2bebd58a3bc7b8d38c76bdc72644ff9f"),
    ("TRAC",  "0x812ce10fb1b923c054c47c0cd93244b45850e6a8"),
    ("VANA",  "0x2832bfd3b0141ef7f1452ea1975323153ac0a7c7"),
    ("BCH",   "0xbe1e8ce9c2e3125aa4155e360cab1de1d6109239"),
    ("COMP",  "0x07c0080711b2e937f32846779ee6c5828b8ab24d"),
    ("FRAX",  "0x9babf71cff53a59cbd5aaff768238a60c6ac3f4b"),
    ("KAS",   "0x0fe6ef67eff87378f49864e666039387ff8ade4e"),
    ("LTC",   "0x0c4ceba4def071a21650e54e598a6602157521cc"),
    ("UNI",   "0xf07f3722753db48f1c967d97eefcdd837a247105"),
    ("WLFI",  "0x3eefe62cb64e762b2c207a5e901a16e616a0dc7c"),
    ("XRP",   "0xef28f15fff0df624c7cafe1fcd59a73f366559ca"),
    ("ZEN",   "0xadc745fbaca7d2f6857a19c64f1d0b26094e1033") ]

/-- The static symbol-to-provider-identifier map `COINGECKO_IDS`
(lines 29-49). -/
def COINGECKO_IDS : List (String × String) :=
  [ ("BAT", "basic-attention-token"),
    ("BDX", "beldex"),
    ("FIL", "filecoin"),
    ("GLM", "golem"),
    ("ICP", "internet-computer"),
    ("NEAR", "near"),
    ("NMR", "numeraire"),
    ("SIREN", "siren"),
    ("TRAC", "origintrail"),
    ("VANA", "vana"),
    ("BCH", "bitcoin-cash"),
    ("COMP", "compound"),
    ("FRAX", "frax"),
    ("KAS", "kaspa"),
    ("LTC", "litecoin"),
    ("UNI", "uniswap"),
    ("WLFI", "world-liberty-financial"),
    ("XRP", "ripple"),
    ("ZEN", "horizen") ]

/-- Line 52: `ids = [COINGECKO_IDS[s] for s in symbols if s in COINGECKO_IDS]`,
the identifier list used to build the provider request. -/
def requestIds (symbols : List String) : List String :=
  symbols.filterMap (fun s => alookup COINGECKO_IDS s)

/-- Lines 54-55: the request URL built from the identifier list. -/
def requestUrl (symbols : List String) : String :=
  "https://api.coingecko.com/api/v3/simple/price" ++ "?ids=" ++
    String.intercalate "," (requestIds symbols) ++ "&vs_currencies=usd"

/-- One iteration of the loop of lines 60-65: look the symbol up in the
identifier map (`dict.get`, with Python truthiness on the result), then in the
response; `data[cg_id]["usd"]` raises `KeyError` when the record carries no
`usd` field. -/
def fetchOne (data : Response) (sym : String) : Except Unit (String × Option Dec) :=
  match alookup COINGECKO_IDS sym with
  | some cg_id =>
    if cg_id = "" then Except.ok (sym, none)
    else
      match alookup data cg_id with
      | some rec =>
        match rec with
        | some d => Except.ok (sym, some d)
        | none => Except.error ()
      | none => Except.ok (sym, none)
  | none => Except.ok (sym, none)

/-- Lines 59-66: the result-building loop of `fetch_prices`, iterating the
symbols in order and aborting at the first raised exception.  The network
call itself is factored out: the parsed body is the `data` parameter. -/
def fetch_prices (symbols : List String) (data : Response) :
    Except Unit (List (String × Option Dec)) :=
  match symbols with
  | [] => Except.ok []
  | sym :: rest =>
    match fetchOne data sym with
    | Except.error e => Except.error e
    | Except.ok entry =>
      match fetch_prices rest data with
      | Except.error e => Except.error e
      | Except.ok ps => Except.ok (entry :: ps)

/-- The price `fetch_prices` records for a symbol in the non-raising cases:
`some d` exactly when the symbol maps to a (truthy) identifier that is a key
of the response with a usable `usd` field, `none` otherwise. -/
def priceOf (sym : String) (data : Response) : Option Dec :=
  match alookup COINGECKO_IDS sym with
  | some cg_id =>
    if cg_id = "" then none
    else
      match alookup data cg_id with
      | some (some d) => some d
      | some none => none
      | none => none
  | none => none

/-- A response in which every record carries a usable `usd` field — the
response shape documented for the provider endpoint. -/
def WellFormedResp (data : Response) : Prop := ∀ p ∈ data, p.2 ≠ (none : Option Dec)

instance (data : Response) : Decidable (WellFormedResp data) :=
  List.decidableBAll _ data

/-- The scaled-value slot of an output line (lines 77-80): the string
`"None"` for an absent price, else `str` of the truncated integer. -/
def scaledStr (p : Option Dec) : String :=
  match p with
  | none => "None"
  | some d => toString (scaledInt d)

/-- Line 82: the f-string template of one output line. -/
def formatLine (symbol address : String) (p : Option Dec) : String :=
  "tokens.push(TokenConfig(\"" ++ symbol ++ "\", " ++ address ++ ", " ++
    scaledStr p ++ ", 18));"

/-- Line 70: `symbols = [s for s, _ in TOKENS]`. -/
def tokenSymbols : List String := TOKENS.map Prod.fst

/-- Lines 74-82: the output loop; `prices[symbol]` raises `KeyError` when the
symbol is not a key of the mapping. -/
def outputLoop : List (String × String) → List (String × Option Dec) →
    Except Unit (List String)
  | [], _ => Except.ok []
  | (symbol, address) :: rest, ps =>
    match alookup ps symbol with
    | none => Except.error ()
    | some p =>
      match outputLoop rest ps with
      | Except.error e => Except.error e
      | Except.ok ls => Except.ok (formatLine symbol address p :: ls)

/-- The outcome of `requests.get(url).json()` (line 57): a connection error
(`requests.get` raises), or an HTTP response with a status code — returned
for success and failure statuses alike — and a body that either parses as
JSON (`some data`) or does not (`.json()` raises). -/
inductive NetResult where
  | connError : NetResult
  | httpResp (status : Nat) (body : Option Response) : NetResult

/-- The whole run of the script (lines 51-82): the network call, the
price-mapping loop, then the output loop. -/
def runScript (net : NetResult) : Except Unit (List String) :=
  match net with
  | NetResult.connError => Except.error ()
  | NetResult.httpResp _ none => Except.error ()
  | NetResult.httpResp _ (some data) =>
    match fetch_prices tokenSymbols data with
    | Except.error e => Except.error e
    | Except.ok ps => outputLoop TOKENS ps

/-- A fabricated response giving every provider identifier a usable `usd`
field of value 10^-19 (a valid but tiny price). -/
def tinyResp : Response := COINGECKO_IDS.map (fun q => (q.2, some (Dec.mk 1 19)))

/-- A fabricated response giving every provider identifier a usable `usd`
field of value 2.5. -/
def fullResp : Response := COINGECKO_IDS.map (fun q => (q.2, some (Dec.mk 25 1)))

/-- A successful association-list lookup returns a stored pair. -/
theorem alookup_eq_some_mem {α : Type} {l : List (String × α)} {s : String} {v : α}
    (h : alookup l s = some v) : (s, v) ∈ l := by
  induction l with
  | nil => simp [alookup] at h
  | cons p rest ih =>
    obtain ⟨k, w⟩ := p
    simp only [alookup] at h
    split at h
    · next hk =>
      injection h with hw
      subst hw
      subst hk
      exact List.mem_cons_self _ _
    · exact List.mem_cons_of_mem _ (ih h)

/-- Lookup in a list tabulating a function returns the function value. -/
theorem alookup_map_self {β : Type} (g : String → β) :
    ∀ (xs : List String) (s : String), s ∈ xs →
      alookup (xs.map fun t => (t, g t)) s = some (g s) := by
  intro xs
  induction xs with
  | nil => intro s hs; cases hs
  | cons k rest ih =>
    intro s hs
    by_cases hk : k = s
    · subst hk
      simp [alookup]
    · have hmem : s ∈ rest := by
        cases hs with
        | head => exact absurd rfl hk
        | tail _ h => exact h
      simp [alookup, hk, ih s hmem]

/-- On a well-formed response one loop iteration never raises and records
exactly `priceOf`. -/
theorem fetchOne_ok {data : Response} (h : WellFormedResp data) (sym : String) :
    fetchOne data sym = Except.ok (sym, priceOf sym data) := by
  unfold fetchOne priceOf
  cases hc : alookup COINGECKO_IDS sym with
  | none => rfl
  | some cg_id =>
    by_cases he : cg_id = ""
    · simp [he]
    · simp only [if_neg he]
      cases hd : alookup data cg_id with
      | none => rfl
      | some rec =>
        cases rec with
        | some d => rfl
        | none => exact absurd rfl (h _ (alookup_eq_some_mem hd))

/-- On a well-formed response `fetch_prices` succeeds and returns one entry
per input symbol, in input order, valued by `priceOf`. -/
theorem fetch_prices_ok {data : Response} (h : WellFormedResp data) :
    ∀ symbols : List String,
      fetch_prices symbols data = Except.ok (symbols.map fun s => (s, priceOf s data)) := by
  intro symbols
  induction symbols with
  | nil => rfl
  | cons sym rest ih =>
    simp [fetch_prices, fetchOne_ok h sym, ih]

/-- The output loop succeeds and emits one line per table entry, in table
order, whenever every needed symbol resolves in the price mapping. -/
theorem outputLoop_ok (f : String → Option Dec) :
    ∀ (toks : List (String × String)) (ps : List (String × Option Dec)),
      (∀ p ∈ toks, alookup ps p.1 = some (f p.1)) →
      outputLoop toks ps = Except.ok (toks.map fun p => formatLine p.1 p.2 (f p.1)) := by
  intro toks
  induction toks with
  | nil => intro ps _; rfl
  | cons p rest ih =>
    intro ps hps
    obtain ⟨symbol, address⟩ := p
    have h1 : alookup ps symbol = some (f symbol) := hps _ (List.mem_cons_self _ _)
    have h2 := ih ps (fun q hq => hps q (List.mem_cons_of_mem _ hq))
    simp [outputLoop, h1, h2]

/-- On a well-formed JSON body — of any HTTP status — the whole run succeeds
and prints exactly the table, formatted through `formatLine` and `priceOf`. -/
theorem runScript_ok (st : Nat) {data : Response} (h : WellFormedResp data) :
    runScript (NetResult.httpResp st (some data)) =
      Except.ok (TOKENS.map fun p => formatLine p.1 p.2 (priceOf p.1 data)) := by
  rw [show runScript (NetResult.httpResp st (some data)) =
      (match fetch_prices tokenSymbols data with
        | Except.error e => Except.error e
        | Except.ok ps => outputLoop TOKENS ps) from rfl,
    fetch_prices_ok h tokenSymbols]
  exact outputLoop_ok (fun s => priceOf s data) TOKENS _
    (fun p hp => alookup_map_self _ tokenSymbols p.1 (List.mem_map_of_mem _ hp))

/-- Casting the scaled product of a `Dec` into integer-over-natural form. -/
theorem decVal_mul_cast (d : Dec) :
    decVal d * 10 ^ 18 = ((d.m * 10 ^ 18 : ℤ) : ℚ) / (((10 : ℕ) ^ d.e : ℕ) : ℚ) := by
  unfold decVal
  push_cast
  ring

/-- For a non-negative mantissa, truncation toward zero is the floor. -/
theorem scaledInt_eq_floor {d : Dec} (h : 0 ≤ d.m) :
    scaledInt d = ⌊decVal d * 10 ^ 18⌋ := by
  have ha : (0 : ℤ) ≤ d.m * 10 ^ 18 := mul_nonneg h (by positivity)
  have hcast : ((10 : ℤ) ^ d.e) = (((10 : ℕ) ^ d.e : ℕ) : ℤ) := by push_cast; ring
  rw [decVal_mul_cast, Rat.floor_intCast_div_natCast]
  unfold scaledInt
  rw [hcast]
  exact Int.tdiv_eq_ediv ha (by positivity)

/-- For a non-positive mantissa, truncation toward zero is the ceiling. -/
theorem scaledInt_eq_ceil {d : Dec} (h : d.m ≤ 0) :
    scaledInt d = ⌈decVal d * 10 ^ 18⌉ := by
  have h1 : scaledInt (Dec.mk (-d.m) d.e) = ⌊decVal (Dec.mk (-d.m) d.e) * 10 ^ 18⌋ :=
    scaledInt_eq_floor (by simp only [Dec.mk.injEq]; omega)
  have h2 : decVal (Dec.mk (-d.m) d.e) = -decVal d := by
    unfold decVal
    push_cast
    ring
  have h3 : scaledInt d = -(scaledInt (Dec.mk (-d.m) d.e)) := by
    unfold scaledInt
    simp only
    rw [show d.m * 10 ^ 18 = -(-d.m * 10 ^ 18) by ring, Int.neg_tdiv]
  rw [h3, h1, h2, show -decVal d * 10 ^ 18 = -(decVal d * 10 ^ 18) by ring,
    Int.floor_neg, neg_neg]

/-- A present `priceOf` value is a `usd` value stored in the response. -/
theorem priceOf_mem {sym : String} {data : Response} {d : Dec}
    (h : priceOf sym data = some d) : ∃ cg_id, (cg_id, some d) ∈ data := by
  unfold priceOf at h
  split at h
  · next cg_id hc =>
    split at h
    · exact absurd h (by simp)
    · split at h
      · next w hd =>
        injection h with hw
        subst hw
        exact ⟨cg_id, alookup_eq_some_mem hd⟩
      · exact absurd h (by simp)
      · exact absurd h (by simp)
  · exact absurd h (by simp)

/-- A present price is exactly a mapped, truthy identifier that is a response
key whose record carries a usable `usd` field. -/
theorem priceOf_eq_some_iff (s : String) (data : Response) (d : Dec) :
    priceOf s data = some d ↔
      ∃ cg_id, alookup COINGECKO_IDS s = some cg_id ∧ cg_id ≠ "" ∧
        alookup data cg_id = some (some d) := by
  constructor
  · intro h
    unfold priceOf at h
    split at h
    · next cg_id hc =>
      split at h
      · exact absurd h (by simp)
      · next he =>
        split at h
        · next w hd =>
          injection h with hw
          subst hw
          exact ⟨cg_id, hc, he, hd⟩
        · exact absurd h (by simp)
        · exact absurd h (by simp)
    · exact absurd h (by simp)
  · rintro ⟨cg_id, hc, he, hd⟩
    unfold priceOf
    simp only [hc]
    rw [if_neg he, hd]

/-- C1: for every provider response mapping of the documented shape (every
record carrying a usable usd field) and any HTTP status, the program emits
exactly one output line per entry of the static token table, and the lines
appear in the same order as the entries of the table — the output is the
entry-wise image of `TOKENS` — regardless of whether a price was found for
each symbol. -/
theorem C1_one_line_per_token (st : Nat) (data : Response) (h : WellFormedResp data) :
    runScript (NetResult.httpResp st (some data)) =
      Except.ok (TOKENS.map fun p => formatLine p.1 p.2 (priceOf p.1 data))
    ∧ (TOKENS.map fun p => formatLine p.1 p.2 (priceOf p.1 data)).length = TOKENS.length :=
  ⟨runScript_ok st h, List.length_map _ _⟩

/-- C1 witness: the empty response body, status 200. -/
theorem C1_witness :
    runScript (NetResult.httpResp 200 (some [])) =
      Except.ok (TOKENS.map fun p => formatLine p.1 p.2 (priceOf p.1 []))
    ∧ (TOKENS.map fun p => formatLine p.1 p.2 (priceOf p.1 [])).length = TOKENS.length :=
  C1_one_line_per_token 200 [] (by decide)

/-- C2 counterexample: "LTC" has the provider mapping "litecoin", and
"litecoin" is a key of the response, but its record lacks a usd field.  The
claim says the symbol is recorded as absent and the run continues without
raising; the code instead raises (KeyError on the usd subscription) and the
run aborts. -/
theorem C2_counterexample :
    alookup COINGECKO_IDS "LTC" = some "litecoin"
    ∧ fetch_prices ["LTC"] [("litecoin", (none : Option Dec))] = Except.error () :=
  ⟨by decide, rfl⟩

/-- C2 amended: on a response in which every record carries a usable usd
field, `fetch_prices` returns a mapping over exactly the input symbols, in
order, and a symbol's price is present iff the symbol has a (truthy)
provider-identifier mapping whose identifier is a key of the response with a
usable usd field; with no mapping or with the identifier absent the symbol is
recorded as absent.  (When a mapped identifier's record lacks the usd field
the call raises instead of recording an absence.) -/
theorem C2_amended (symbols : List String) (data : Response) (h : WellFormedResp data) :
    fetch_prices symbols data = Except.ok (symbols.map fun s => (s, priceOf s data))
    ∧ ∀ s d, priceOf s data = some d ↔
        ∃ cg_id, alookup COINGECKO_IDS s = some cg_id ∧ cg_id ≠ "" ∧
          alookup data cg_id = some (some d) :=
  ⟨fetch_prices_ok h symbols, fun s d => priceOf_eq_some_iff s data d⟩

/-- C2 witness: a mapped symbol found in the response and an unmapped one. -/
theorem C2_witness :
    fetch_prices ["LTC", "FOO"] [("litecoin", some (Dec.mk 25 1))] =
      Except.ok [("LTC", some (Dec.mk 25 1)), ("FOO", none)] := by
  have h := (C2_amended ["LTC", "FOO"] [("litecoin", some (Dec.mk 25 1))] (by decide)).1
  rw [h]
  rfl

/-- C3 counterexample: a non-success HTTP status (500) whose body parses as
JSON (here the empty object) does not abort the run: `requests.get` does not
raise on error statuses and the script never checks the status code, so all
19 output lines are produced.  This refutes the claim that every network
failure, including a non-success status, aborts the run before any output. -/
theorem C3_counterexample :
    runScript (NetResult.httpResp 500 (some [])) =
      Except.ok (TOKENS.map fun p => formatLine p.1 p.2 none)
    ∧ (TOKENS.map fun p => formatLine p.1 p.2 none).length = 19 :=
  ⟨rfl, rfl⟩

/-- C3 amended: a connection error (requests.get raises) or a body that does
not parse as JSON (.json() raises) aborts the run with a propagated error
before producing any output lines; a non-success HTTP status with a JSON
body does not abort — the script ignores the status code entirely. -/
theorem C3_amended :
    runScript NetResult.connError = Except.error ()
    ∧ ∀ st : Nat, runScript (NetResult.httpResp st none) = Except.error () :=
  ⟨rfl, fun _ => rfl⟩

/-- C4 counterexample: for the present price -1.5e-19 the code computes
`int(p * 10**18) = 0` (truncation toward zero) while floor gives -1, so the
emitted scaled value is not floor(price * 10^18) for every present price. -/
theorem C4_counterexample :
    scaledInt (Dec.mk (-15) 20) = 0
    ∧ ⌊decVal (Dec.mk (-15) 20) * 10 ^ 18⌋ = -1 := by
  refine ⟨by decide, ?_⟩
  have h : decVal (Dec.mk (-15) 20) * 10 ^ 18 = (-3 : ℚ) / 20 := by
    unfold decVal
    norm_num
  rw [h, Int.floor_eq_iff]
  norm_num

/-- C4 amended: for every present price with non-negative mantissa the
emitted scaled value equals floor(price * 10^18), computed with exact decimal
arithmetic, and is rendered as str of that integer; in general the conversion
truncates toward zero, which coincides with floor only when the price is
non-negative. -/
theorem C4_amended (d : Dec) (h : 0 ≤ d.m) :
    scaledInt d = ⌊decVal d * 10 ^ 18⌋
    ∧ scaledStr (some d) = toString (scaledInt d) :=
  ⟨scaledInt_eq_floor h, rfl⟩

/-- C4 witness: the price 2.5. -/
theorem C4_witness :
    scaledInt (Dec.mk 25 1) = ⌊decVal (Dec.mk 25 1) * 10 ^ 18⌋
    ∧ scaledStr (some (Dec.mk 25 1)) = toString (scaledInt (Dec.mk 25 1)) :=
  C4_amended (Dec.mk 25 1) (by decide)

/-- C5 counterexample: a response in which every mapped provider identifier
carries a valid usd field (value 10^-19), yet every output line shows the
scaled value 0, which is not positive. -/
theorem C5_counterexample :
    (tokenSymbols.all fun s => (priceOf s tinyResp).isSome) = true
    ∧ runScript (NetResult.httpResp 200 (some tinyResp)) =
        Except.ok (TOKENS.map fun p => formatLine p.1 p.2 (some (Dec.mk 1 19)))
    ∧ scaledInt (Dec.mk 1 19) = 0
    ∧ formatLine "BAT" "0x02a8db2231f88fee863081aa7baa4b7e3795e84d" (some (Dec.mk 1 19)) =
        "tokens.push(TokenConfig(\"BAT\", 0x02a8db2231f88fee863081aa7baa4b7e3795e84d, 0, 18));" :=
  ⟨by decide, rfl, by decide, rfl⟩

/-- C5 amended: if every mapped provider identifier carries a valid usd field
and every usd value is at least 10^-18 (equivalently price * 10^18 >= 1),
then every output line shows a positive integer scaled value equal to
round-down(price * 10^18). -/
theorem C5_amended (st : Nat) (data : Response)
    (hwf : WellFormedResp data)
    (hall : ∀ s ∈ tokenSymbols, (priceOf s data).isSome = true)
    (hpos : ∀ q ∈ data, ∀ d : Dec, q.2 = some d → (1 : ℚ) ≤ decVal d * 10 ^ 18) :
    runScript (NetResult.httpResp st (some data)) =
      Except.ok (TOKENS.map fun p => formatLine p.1 p.2 (priceOf p.1 data))
    ∧ ∀ p ∈ TOKENS, ∃ d : Dec, priceOf p.1 data = some d
        ∧ 0 < scaledInt d
        ∧ scaledInt d = ⌊decVal d * 10 ^ 18⌋
        ∧ formatLine p.1 p.2 (priceOf p.1 data) =
            "tokens.push(TokenConfig(\"" ++ p.1 ++ "\", " ++ p.2 ++ ", " ++
              toString (scaledInt d) ++ ", 18));" := by
  refine ⟨runScript_ok st hwf, ?_⟩
  intro p hp
  have hs : p.1 ∈ tokenSymbols := List.mem_map_of_mem _ hp
  have hsome := hall p.1 hs
  obtain ⟨d, hd⟩ : ∃ d, priceOf p.1 data = some d := by
    cases hpd : priceOf p.1 data with
    | none => rw [hpd] at hsome; simp at hsome
    | some d => exact ⟨d, rfl⟩
  obtain ⟨cg, hmem⟩ := priceOf_mem hd
  have h1 : (1 : ℚ) ≤ decVal d * 10 ^ 18 := hpos _ hmem d rfl
  have h10 : (0 : ℚ) < (10 : ℚ) ^ d.e := by positivity
  have hdv : (0 : ℚ) < decVal d := by
    by_contra hle
    push_neg at hle
    have hnp : decVal d * 10 ^ 18 ≤ 0 := mul_nonpos_of_nonpos_of_nonneg hle (by positivity)
    linarith
  have hm : 0 ≤ d.m := by
    have hq : (0 : ℚ) < (d.m : ℚ) := by
      have h2 := mul_pos hdv h10
      unfold decVal at h2
      rwa [div_mul_cancel₀] at h2
      positivity
    exact_mod_cast le_of_lt hq
  have hfl := scaledInt_eq_floor hm
  have hp2 : 0 < scaledInt d := by
    rw [hfl]
    have hle1 : (1 : ℤ) ≤ ⌊decVal d * 10 ^ 18⌋ := Int.le_floor.mpr (by exact_mod_cast h1)
    omega
  refine ⟨d, hd, hp2, hfl, ?_⟩
  rw [hd]
  rfl

/-- C5 witness: every provider identifier priced at 2.5. -/
theorem C5_witness :
    runScript (NetResult.httpResp 200 (some fullResp)) =
      Except.ok (TOKENS.map fun p => formatLine p.1 p.2 (priceOf p.1 fullResp)) := by
  have hpos : ∀ q ∈ fullResp, ∀ d : Dec, q.2 = some d → (1 : ℚ) ≤ decVal d * 10 ^ 18 := by
    intro q hq d hdq
    obtain ⟨r, _, rfl⟩ := List.mem_map.mp hq
    injection hdq with hw
    subst hw
    unfold decVal
    norm_num
  exact (C5_amended 200 fullResp (by decide) (by decide) hpos).1

/-- C6: given the fabricated response mapping "litecoin" to usd value 2.5 and
the provider map entry LTC -> litecoin, the price recorded for LTC is 2.5 and
its scaled value is 2500000000000000000. -/
theorem C6_roundtrip :
    alookup COINGECKO_IDS "LTC" = some "litecoin"
    ∧ fetch_prices ["LTC"] [("litecoin", some (Dec.mk 25 1))] =
        Except.ok [("LTC", some (Dec.mk 25 1))]
    ∧ scaledInt (Dec.mk 25 1) = 2500000000000000000 :=
  ⟨by decide, rfl, by decide⟩

/-- C7: given the empty response body, the run emits exactly one line per
configured token, in table order (no line omitted), and every line is the
template applied to an absent price, whose scaled slot is the absence marker
"None". -/
theorem C7_empty_response :
    runScript (NetResult.httpResp 200 (some [])) =
      Except.ok (TOKENS.map fun p => formatLine p.1 p.2 none)
    ∧ (TOKENS.map fun p => formatLine p.1 p.2 none).length = TOKENS.length
    ∧ scaledStr (none : Option Dec) = "None"
    ∧ formatLine "BAT" "0x02a8db2231f88fee863081aa7baa4b7e3795e84d" none =
        "tokens.push(TokenConfig(\"BAT\", 0x02a8db2231f88fee863081aa7baa4b7e3795e84d, None, 18));" :=
  ⟨rfl, rfl, rfl, rfl⟩

/-- C8: a symbol with no provider-identifier mapping contributes nothing to
the identifier list of the provider request, still appears in the result
mapping with an absent price for every response, and its output line shows
the absence marker. -/
theorem C8_unmapped (sym addr : String) (xs ys : List String) (data : Response)
    (hns : alookup COINGECKO_IDS sym = none) (hwf : WellFormedResp data) :
    requestIds (xs ++ sym :: ys) = requestIds (xs ++ ys)
    ∧ fetch_prices (xs ++ sym :: ys) data =
        Except.ok ((xs ++ sym :: ys).map fun s => (s, priceOf s data))
    ∧ priceOf sym data = none
    ∧ formatLine sym addr (priceOf sym data) =
        "tokens.push(TokenConfig(\"" ++ sym ++ "\", " ++ addr ++ ", " ++ "None" ++ ", 18));" := by
  have hpn : priceOf sym data = none := by
    unfold priceOf
    rw [hns]
  refine ⟨?_, fetch_prices_ok hwf _, hpn, ?_⟩
  · unfold requestIds
    rw [List.filterMap_append, List.filterMap_append, List.filterMap_cons_none hns]
  · rw [hpn]
    rfl

/-- C8 witness: the unmapped symbol "DOGE" between mapped symbols, with a
response that prices litecoin. -/
theorem C8_witness :
    requestIds (["LTC"] ++ "DOGE" :: []) = requestIds (["LTC"] ++ [])
    ∧ fetch_prices (["LTC"] ++ "DOGE" :: []) [("litecoin", some (Dec.mk 25 1))] =
        Except.ok ((["LTC"] ++ "DOGE" :: []).map fun s =>
          (s, priceOf s [("litecoin", some (Dec.mk 25 1))]))
    ∧ priceOf "DOGE" [("litecoin", some (Dec.mk 25 1))] = none
    ∧ formatLine "DOGE" "0xdead" (priceOf "DOGE" [("litecoin", some (Dec.mk 25 1))]) =
        "tokens.push(TokenConfig(\"" ++ "DOGE" ++ "\", " ++ "0xdead" ++ ", " ++ "None" ++ ", 18));" :=
  C8_unmapped "DOGE" "0xdead" ["LTC"] [] _ (by decide) (by decide)

/-- C9: every output line is the fixed template with the symbol quoted, the
address inserted unquoted byte for byte from the static table — entry 4 is
the ICP address with its embedded space — the scaled-or-absent slot, and the
literal 18. -/
theorem C9_template (st : Nat) (data : Response) (hwf : WellFormedResp data) :
    runScript (NetResult.httpResp st (some data)) =
      Except.ok (TOKENS.map fun p => formatLine p.1 p.2 (priceOf p.1 data))
    ∧ (∀ s a q, formatLine s a q =
        "tokens.push(TokenConfig(\"" ++ s ++ "\", " ++ a ++ ", " ++ scaledStr q ++ ", 18));")
    ∧ TOKENS[4]? = some ("ICP", "0xb6eb2a1b73bc0d94" ++ " " ++ "02c59c1b092abcec900b3d04") :=
  ⟨runScript_ok st hwf, fun _ _ _ => rfl, rfl⟩

/-- C9 witness: empty response body, a redirect status. -/
theorem C9_witness :
    runScript (NetResult.httpResp 301 (some [])) =
      Except.ok (TOKENS.map fun p => formatLine p.1 p.2 (priceOf p.1 [])) :=
  (C9_template 301 [] (by decide)).1

/-- C10: the scaled conversion truncates toward zero: it is the floor of
price * 10^18 for a non-negative price and the ceiling for a negative
price. -/
theorem C10_truncation (d : Dec) :
    (0 ≤ d.m → scaledInt d = ⌊decVal d * 10 ^ 18⌋)
    ∧ (d.m < 0 → scaledInt d = ⌈decVal d * 10 ^ 18⌉) :=
  ⟨fun h => scaledInt_eq_floor h, fun h => scaledInt_eq_ceil (le_of_lt h)⟩

/-- C10 witness: the negative price -1.5e-19 follows the ceiling and the
positive price 2.5 follows the floor. -/
theorem C10_witness :
    scaledInt (Dec.mk (-15) 20) = ⌈decVal (Dec.mk (-15) 20) * 10 ^ 18⌉
    ∧ scaledInt (Dec.mk 25 1) = ⌊decVal (Dec.mk 25 1) * 10 ^ 18⌋ :=
  ⟨(C10_truncation (Dec.mk (-15) 20)).2 (by decide),
   (C10_truncation (Dec.mk 25 1)).1 (by decide)⟩
